/-
Verification of the finance-ai document ingestion and budget-synchronization
pipeline.

Shallow embedding of:
  * `src/utils/processor.py` — `DocumentProcessingWorkflow.process_document`
    and `process_multiple_documents`;
  * `src/app.py` — the transaction CRUD routes `create_transaction`,
    `update_transaction`, `delete_transaction`, `handle_single_transaction`
    (PUT/DELETE branches), `bulk_delete_transactions`, `import_transactions`.

Modelling conventions:
  * The SQLAlchemy session is modelled as a pair of stores: `database` (the
    committed contents) and `session` (the working copy).  `commit` copies
    the session over the database; `rollback` restores the session from the
    database.  A rollback after a completed commit therefore cannot undo
    that commit, exactly as in SQLAlchemy.
  * External collaborators (`DocumentProcessor.process_document`,
    `DataExtractor.extract_all_data`, `TransactionCategorizer.predict_category`,
    `BudgetUtils.sync_*`, the notification managers) live in `ai_modules/`,
    `utils/budget_utils.py` and `models/notification_system.py`, which are not
    part of the excerpt; they are modelled as an environment `Env` of
    uninterpreted behaviours.  A Python exception raised by a collaborator is
    modelled as an `Except.error` outcome.
  * Calls into the budget synchronizer and the notification sink are recorded
    in an event log (`State.events`, newest first); the log is the observable
    trace of "sync was re-triggered" / "a notification was fired".
  * Monetary amounts (Python floats) are modelled as rationals: the source
    only copies, compares and truth-tests them, so no floating-point
    behaviour is involved.  Python truthiness of a float is `x ≠ 0`;
    truthiness of `dict.get` results is modelled on `Option`.
  * Dates are kept as opaque strings (the source only parses and copies
    them); `strptime` parse failures are not modelled.
-/
import Mathlib

namespace FinanceAI

/-- `models/document.py`: the `Document` row, restricted to the columns read
or written by the pipeline. -/
structure Document where
  id : Nat
  filename : String
  original_filename : String
  file_path : String
  raw_text : Option String
  processed : Bool
deriving DecidableEq, Repr

/-- `models/category.py`: the `Category` row (identity and unique name). -/
structure Category where
  id : Nat
  name : String
deriving DecidableEq, Repr

/-- `models/transaction.py`: the `Transaction` row, restricted to the columns
the pipeline writes. -/
structure Transaction where
  id : Nat
  document_id : Option Nat
  transaction_date : Option String
  amount : ℚ
  currency : String
  vendor_name : String
  description : String
  category_id : Option Nat
  payment_method : Option String
  tax_amount : ℚ
  tax_percentage : Option ℚ
deriving DecidableEq, Repr

/-- The mapping returned by `DataExtractor.extract_all_data` (transient,
never persisted).  A `none` field models an absent dictionary key.  The
Python results `None` and `{}` are both falsy and both take the
`if not extracted_data` branch, so both are modelled as `Option.none` at the
outer level. -/
structure ExtractedFields where
  vendor : Option String
  amount : Option ℚ
  date : Option String
  payment_method : Option String
  tax_amount : Option ℚ
  tax_percentage : Option ℚ
deriving DecidableEq, Repr

/-- One table snapshot: the rows of the three entities plus the id counter
the database assigns to newly inserted transactions. -/
structure Store where
  documents : List Document
  transactions : List Transaction
  categories : List Category
  nextTransactionId : Nat
deriving DecidableEq, Repr

/-- Observable calls into the external budget synchronizer and notification
sink (`utils/budget_utils.py`, `models/notification_system.py`). -/
inductive Event where
  | syncTransaction (category_id : Option Nat) (date : Option String)
      (old_category_id : Option Nat) (old_date : Option String)
  | syncDeleted (category_id : Option Nat) (date : Option String)
  | syncAll
  | notifyDocumentProcessed (document_id : Nat) (transaction_count : Nat)
  | notifyTransactionAdded
  | notifyFailure (message : String)
  | notifyBatchComplete (success_count : Nat) (total_transactions : Nat)
deriving DecidableEq, Repr

/-- The full program state: committed store, session working copy, and the
trace of collaborator calls (newest first). -/
structure State where
  database : Store
  session : Store
  events : List Event
deriving DecidableEq, Repr

/-- Behaviour of the external collaborators.  An `Except.error e` models the
collaborator raising a Python exception with message `e`. -/
structure Env where
  /-- `DocumentProcessor.process_document(file_path, ext)` returning the
  `(text, error)` pair of the contract in spec §4.1. -/
  processFile : String → String → Except String (Option String × Option String)
  /-- `DataExtractor.extract_all_data(text)`; `Except.ok none` models a
  null/empty (falsy) mapping. -/
  extract_all_data : String → Except String (Option ExtractedFields)
  /-- `TransactionCategorizer.predict_category(vendor, text)`. -/
  predict_category : String → String → Except String (String × ℚ)
  /-- Outcome of `BudgetUtils.sync_transaction_budgets(...)`. -/
  sync_transaction_budgets : Except String Unit
  /-- Outcome of `BudgetUtils.sync_deleted_transaction_budget(...)`. -/
  sync_deleted_transaction_budget : Except String Unit
  /-- Outcome of `BudgetUtils.sync_all_budgets()` (returns updated count). -/
  sync_all_budgets : Except String Nat
  /-- Outcome of `BudgetNotificationManager.notify_document_processed`. -/
  notify_document_processed : Except String Unit
  /-- Outcome of `BudgetNotificationManager.notify_transaction_added`. -/
  notify_transaction_added : Except String Unit
  /-- Outcome of `NotificationManager.create_notification`. -/
  create_notification : Except String Unit

/-! ## Session primitives -/

/-- `db.session.commit()`: the session contents become the database
contents. -/
def commit (s : State) : State := { s with database := s.session }

/-- `db.session.rollback()`: the session is restored from the database.
A commit that already happened is not undone. -/
def rollback (s : State) : State := { s with session := s.database }

/-- Record a collaborator call in the trace. -/
def logEvent (s : State) (e : Event) : State := { s with events := e :: s.events }

/-- A collaborator call whose exception is caught locally and only printed
(`try: ... except Exception as e: print(...)`): the outcome never influences
the state. -/
def swallow (e : Except String Unit) (s : State) : State :=
  match e with
  | .ok _ => s
  | .error _ => s

/-- `db.session.get(Document, document_id)`. -/
def findDocument (st : Store) (document_id : Nat) : Option Document :=
  st.documents.find? (fun d => d.id == document_id)

/-- `Transaction.query.get(trans_id)`. -/
def findTransaction (st : Store) (trans_id : Nat) : Option Transaction :=
  st.transactions.find? (fun t => t.id == trans_id)

/-- `Category.query.get(category_id)`. -/
def findCategory (st : Store) (category_id : Nat) : Option Category :=
  st.categories.find? (fun c => c.id == category_id)

/-- `Category.query.filter_by(name=...).first()`. -/
def findCategoryByName (st : Store) (name : String) : Option Category :=
  st.categories.find? (fun c => c.name == name)

/-- Mutate the session copy of document `document_id` (field assignment on a
loaded ORM object). -/
def updateDocument (s : State) (document_id : Nat) (f : Document → Document) : State :=
  { s with session :=
      { s.session with documents :=
          s.session.documents.map (fun d => if d.id == document_id then f d else d) } }

/-- Mutate the session copy of transaction `trans_id`. -/
def updateTransactionRow (s : State) (trans_id : Nat) (f : Transaction → Transaction) : State :=
  { s with session :=
      { s.session with transactions :=
          s.session.transactions.map (fun t => if t.id == trans_id then f t else t) } }

/-- `db.session.add(transaction)`: the new row enters the session and is
assigned the next id. -/
def addTransaction (s : State) (t : Transaction) : State :=
  { s with session :=
      { s.session with
          transactions := { t with id := s.session.nextTransactionId } :: s.session.transactions,
          nextTransactionId := s.session.nextTransactionId + 1 } }

/-- `db.session.delete(transaction)`. -/
def removeTransaction (s : State) (trans_id : Nat) : State :=
  { s with session :=
      { s.session with transactions :=
          s.session.transactions.filter (fun t => t.id != trans_id) } }

/-- `Transaction.query.filter_by(document_id=doc_id).count()`. -/
def countTransactionsFor (st : Store) (doc_id : Nat) : Nat :=
  (st.transactions.filter (fun t => t.document_id == some doc_id)).length

/-- Python `str.split(sep)` for a single-character separator, over the
character list of the string. -/
def splitChars (sep : Char) : List Char → List (List Char)
  | [] => [[]]
  | c :: cs =>
    match splitChars sep cs with
    | [] => if c == sep then [[], [c]] else [[c]]
    | g :: gs => if c == sep then [] :: g :: gs else (c :: g) :: gs

/-- Python `str.strip()`: drop whitespace from both ends. -/
def strip (s : String) : String :=
  ⟨(((s.data.dropWhile Char.isWhitespace).reverse.dropWhile Char.isWhitespace).reverse)⟩

/-- `document.filename.split('.')[-1].lower()`. -/
def fileExtension (filename : String) : String :=
  ⟨((splitChars '.' filename.data).getLastD []).map Char.toLower⟩

/-- Python truthiness of `extracted_data.get('amount')`: `None` and `0.0`
are falsy. -/
def truthyAmount : Option ℚ → Bool
  | none => false
  | some a => a != 0

/-- Python truthiness of an optional string (`None` and `""` falsy). -/
def truthyStr : Option String → Bool
  | none => false
  | some v => v != ""

/-- Python truthiness of an optional integer id (`None` and `0` falsy). -/
def truthyNat : Option Nat → Bool
  | none => false
  | some n => n != 0

/-- `document.processed = True` (processor.py line 115 / 72). -/
def markProcessed (d : Document) : Document := { d with processed := true }

/-! ## `DocumentProcessingWorkflow.process_document` (processor.py lines 32-163)

The body of the `try:` block is `processDocumentBody`; an `Except.error`
outcome is an exception reaching the `except Exception` handler at line 143.
Early `return` statements inside the `try:` are ordinary `Except.ok`
results. -/

/-- processor.py lines 85-88: look the predicted name up, falling back to
the category named `"Other"`. -/
def resolveCategory (st : Store) (category_name : String) : Option Category :=
  match findCategoryByName st category_name with
  | some c => some c
  | none => findCategoryByName st "Other"

/-- processor.py lines 95-106: the `Transaction(...)` constructor call. -/
def buildTransaction (document : Document) (extracted : ExtractedFields)
    (vendor : String) (category : Option Category) : Transaction :=
  { id := 0
    document_id := some document.id
    transaction_date := extracted.date
    amount := extracted.amount.getD 0
    currency := "INR"
    vendor_name := vendor
    description := "Extracted from " ++ document.original_filename
    category_id := category.map (fun c => c.id)
    payment_method := extracted.payment_method
    tax_amount := extracted.tax_amount.getD 0
    tax_percentage := extracted.tax_percentage }

/-- processor.py lines 124-139: the two best-effort notification calls after
a successful run.  `transaction_count` is 1 when a transaction was created,
0 otherwise; the "transaction added" notification is attempted only in the
former case.  Sink exceptions are swallowed. -/
def notifyAfterCommit (env : Env) (s : State) (document_id : Nat)
    (transaction_count : Nat) : State :=
  let s1 := swallow env.notify_document_processed
    (logEvent s (.notifyDocumentProcessed document_id transaction_count))
  if transaction_count == 0 then s1
  else swallow env.notify_transaction_added (logEvent s1 .notifyTransactionAdded)

/-- processor.py lines 78-141: categorize, materialize, commit, sync,
notify.  `s1` already holds the session with `raw_text` stored. -/
def materializeStep (env : Env) (s1 : State) (document : Document)
    (text : String) (extracted : ExtractedFields) :
    Except (State × String) (State × Bool × String) :=
  let vendor := extracted.vendor.getD "Unknown"
  match env.predict_category vendor text with
  | .error e => .error (s1, e)
  | .ok (category_name, _confidence) =>
    let category := resolveCategory s1.session category_name
    if truthyAmount extracted.amount then
      let txn := buildTransaction document extracted vendor category
      let s2 := commit (updateDocument (addTransaction s1 txn) document.id markProcessed)
      let s3 := logEvent s2 (.syncTransaction txn.category_id txn.transaction_date none none)
      match env.sync_transaction_budgets with
      | .error e => .error (s3, e)
      | .ok _ => .ok (notifyAfterCommit env s3 document.id 1, true, "Document processed successfully")
    else
      let s2 := commit (updateDocument s1 document.id markProcessed)
      .ok (notifyAfterCommit env s2 document.id 0, true, "Document processed successfully")

/-- processor.py lines 61-141: store the raw text, extract structured data,
then materialize. -/
def extractStep (env : Env) (s : State) (document : Document) (text : String) :
    Except (State × String) (State × Bool × String) :=
  let s1 := updateDocument s document.id (fun d => { d with raw_text := some text })
  match env.extract_all_data text with
  | .error e => .error (s1, e)
  | .ok none =>
    let s2 := commit (updateDocument s1 document.id markProcessed)
    .ok (s2, false, "Could not extract data from text")
  | .ok (some extracted) => materializeStep env s1 document text extracted

/-- processor.py lines 36-141: the `try:` body. -/
def processDocumentBody (env : Env) (s : State) (document_id : Nat) :
    Except (State × String) (State × Bool × String) :=
  match findDocument s.session document_id with
  | none => .ok (s, false, "Document not found")
  | some document =>
    if document.processed then .ok (s, false, "Document already processed")
    else
      match env.processFile document.file_path (fileExtension document.filename) with
      | .error e => .error (s, e)
      | .ok (text, error) =>
        match error with
        | some err => .ok (s, false, err)
        | none =>
          match text with
          | none => .ok (s, false, "No text extracted from document")
          | some t =>
            if t == "" then .ok (s, false, "No text extracted from document")
            else extractStep env s document t

/-- processor.py lines 32-163: `process_document`, including the
`except Exception` handler (rollback, best-effort failure notification,
`(False, str(e))`). -/
def process_document (env : Env) (s : State) (document_id : Nat) :
    State × Bool × String :=
  match processDocumentBody env s document_id with
  | .ok r => r
  | .error (se, e) =>
    let s1 := logEvent (rollback se) (.notifyFailure e)
    (swallow env.create_notification s1, false, e)

/-! ## `process_multiple_documents` (processor.py lines 165-204) -/

/-- The result dictionary of `process_multiple_documents`. -/
structure BatchResults where
  success : List Nat
  failed : List (Nat × String)
  total_transactions : Nat
deriving DecidableEq, Repr

/-- processor.py lines 176-187: one iteration of the batch loop. -/
def processBatchStep (env : Env) (acc : State × BatchResults) (doc_id : Nat) :
    State × BatchResults :=
  let (s, results) := acc
  let (s1, success, message) := process_document env s doc_id
  if success then
    let results1 := { results with success := results.success ++ [doc_id] }
    match findDocument s1.session doc_id with
    | some _ =>
      let trans_count := countTransactionsFor s1.session doc_id
      (s1, { results1 with total_transactions := results1.total_transactions + trans_count })
    | none => (s1, results1)
  else
    (s1, { results with failed := results.failed ++ [(doc_id, message)] })

/-- processor.py lines 165-204: `process_multiple_documents`.  The batch
notification is attempted only when `results['success']` is non-empty. -/
def process_multiple_documents (env : Env) (s : State) (document_ids : List Nat) :
    State × BatchResults :=
  let (s1, results) := document_ids.foldl (processBatchStep env)
    (s, { success := [], failed := [], total_transactions := 0 })
  if results.success.isEmpty then (s1, results)
  else
    let s2 := logEvent s1 (.notifyBatchComplete results.success.length results.total_transactions)
    (swallow env.create_notification s2, results)

/-! ## Transaction CRUD routes (`src/app.py`)

Request JSON bodies are modelled as records of `Option` fields (an absent
field is `none`); the date strings are taken as already parsed.  The JSON
response is reduced to the `(success, message-or-error)` pair the claims
speak about. -/

/-- Body of the manual-entry POST (`create_transaction`, app.py lines
591-677, and the identical POST branch of `handle_transactions`, lines
884-964). -/
structure CreateTransactionData where
  amount : Option ℚ
  vendor_name : Option String
  category_id : Option Nat
  transaction_date : Option String
  currency : Option String
  description : Option String
  payment_method : Option String
  tax_amount : Option ℚ
  tax_percentage : Option ℚ
deriving DecidableEq, Repr

/-- app.py lines 591-677: `create_transaction` (with auto budget sync).
`today` models `datetime.now().date()`. -/
def create_transaction (env : Env) (s : State) (data : CreateTransactionData)
    (today : String) : State × Bool × String :=
  if ¬ truthyAmount data.amount then (s, false, "Missing required field: amount")
  else if ¬ truthyStr data.vendor_name then (s, false, "Missing required field: vendor_name")
  else if ¬ truthyNat data.category_id then (s, false, "Missing required field: category_id")
  else
    let amount := data.amount.getD 0
    if amount ≤ 0 then (s, false, "Invalid amount: Amount must be positive")
    else
      match findCategory s.session (data.category_id.getD 0) with
      | none => (s, false, "Invalid category ID")
      | some _ =>
        let txn : Transaction :=
          { id := 0
            document_id := none
            transaction_date := some ((if truthyStr data.transaction_date
                then data.transaction_date.getD "" else today))
            amount := amount
            currency := data.currency.getD "INR"
            vendor_name := strip (data.vendor_name.getD "")
            description := strip (data.description.getD "Manual entry")
            category_id := data.category_id
            payment_method := some (data.payment_method.getD "Other")
            tax_amount := data.tax_amount.getD 0
            tax_percentage := if truthyAmount data.tax_percentage then data.tax_percentage else none }
        let s1 := commit (addTransaction s txn)
        let s2 := logEvent s1 (.syncTransaction data.category_id txn.transaction_date none none)
        match env.sync_transaction_budgets with
        | .error e => (rollback s2, false, e)
        | .ok _ => (s2, true, "Transaction created successfully")

/-- Body of the update PUT (`update_transaction`, app.py lines 679-765, and
the PUT branch of `handle_single_transaction`, lines 987-1050; the latter
omits the final sync call).  A `some` field models `key in data`. -/
structure UpdateTransactionData where
  amount : Option ℚ
  vendor_name : Option String
  transaction_date : Option String
  category_id : Option Nat
  description : Option String
  payment_method : Option String
  tax_amount : Option ℚ
deriving DecidableEq, Repr

/-- app.py lines 727-755: description / payment-method / tax updates,
commit, then (on the `update_transaction` route, `withSync = true`) the
budget-sync call with the snapshotted old category/date. -/
def updateTransactionTail (env : Env) (s : State) (trans_id : Nat)
    (data : UpdateTransactionData) (old_category_id : Option Nat)
    (old_date : Option String) (withSync : Bool) : State × Bool × String :=
  let s := match data.description with
    | some d => updateTransactionRow s trans_id (fun t => { t with description := strip d })
    | none => s
  let s := match data.payment_method with
    | some p => updateTransactionRow s trans_id (fun t => { t with payment_method := some p })
    | none => s
  let s := match data.tax_amount with
    | some ta => updateTransactionRow s trans_id (fun t => { t with tax_amount := ta })
    | none => s
  let s1 := commit s
  if withSync then
    let current := findTransaction s1.session trans_id
    let s2 := logEvent s1 (.syncTransaction (current.bind (fun t => t.category_id))
      (current.bind (fun t => t.transaction_date)) old_category_id old_date)
    match env.sync_transaction_budgets with
    | .error e => (rollback s2, false, e)
    | .ok _ => (s2, true, "Transaction updated successfully")
  else (s1, true, "Transaction updated successfully")

/-- app.py lines 709-725: the vendor-name / date / category field updates
after the amount check.  The session object has already been mutated by the
earlier `if` blocks, so an early `return` on an invalid category leaves
those mutations pending. -/
def updateTransactionFields (env : Env) (s : State) (trans_id : Nat)
    (data : UpdateTransactionData) (old_category_id : Option Nat)
    (old_date : Option String) (withSync : Bool) : State × Bool × String :=
  let s := match data.vendor_name with
    | some v => updateTransactionRow s trans_id (fun t => { t with vendor_name := strip v })
    | none => s
  let s := match data.transaction_date with
    | some d => updateTransactionRow s trans_id (fun t => { t with transaction_date := some d })
    | none => s
  match data.category_id with
  | some cid =>
    (match findCategory s.session cid with
     | none => (s, false, "Invalid category ID")
     | some _ =>
       updateTransactionTail env
         (updateTransactionRow s trans_id (fun t => { t with category_id := some cid }))
         trans_id data old_category_id old_date withSync)
  | none => updateTransactionTail env s trans_id data old_category_id old_date withSync

/-- app.py lines 679-765: `update_transaction` (PUT, with auto budget
sync).  Snapshots the old category/date before mutating. -/
def update_transaction (env : Env) (s : State) (trans_id : Nat)
    (data : UpdateTransactionData) : State × Bool × String :=
  match findTransaction s.session trans_id with
  | none => (s, false, "Transaction not found")
  | some transaction =>
    let old_category_id := transaction.category_id
    let old_date := transaction.transaction_date
    match data.amount with
    | some a =>
      if a ≤ 0 then (s, false, "Amount must be positive")
      else updateTransactionFields env
        (updateTransactionRow s trans_id (fun t => { t with amount := a }))
        trans_id data old_category_id old_date true
    | none => updateTransactionFields env s trans_id data old_category_id old_date true

/-- app.py lines 987-1050: the PUT branch of `handle_single_transaction` —
same field updates and amount check, but no budget sync after the commit. -/
def handle_single_transaction_put (env : Env) (s : State) (trans_id : Nat)
    (data : UpdateTransactionData) : State × Bool × String :=
  match findTransaction s.session trans_id with
  | none => (s, false, "Transaction not found")
  | some _ =>
    match data.amount with
    | some a =>
      if a ≤ 0 then (s, false, "Amount must be positive")
      else updateTransactionFields env
        (updateTransactionRow s trans_id (fun t => { t with amount := a }))
        trans_id data none none false
    | none => updateTransactionFields env s trans_id data none none false

/-- app.py lines 773-811: `delete_transaction` (DELETE, with auto budget
sync).  The category id and date are snapshotted before the delete and the
sync is re-triggered with those pre-deletion values after the commit. -/
def delete_transaction (env : Env) (s : State) (trans_id : Nat) :
    State × Bool × String :=
  match findTransaction s.session trans_id with
  | none => (s, false, "Transaction not found")
  | some transaction =>
    let category_id := transaction.category_id
    let transaction_date := transaction.transaction_date
    let s1 := commit (removeTransaction s trans_id)
    let s2 := logEvent s1 (.syncDeleted category_id transaction_date)
    match env.sync_deleted_transaction_budget with
    | .error e => (rollback s2, false, e)
    | .ok _ => (s2, true, "Transaction deleted successfully")

/-- app.py lines 1052-1071: the DELETE branch of `handle_single_transaction`
— deletes and commits with no snapshot and no budget-sync call. -/
def handle_single_transaction_delete (s : State) (trans_id : Nat) :
    State × Bool × String :=
  match findTransaction s.session trans_id with
  | none => (s, false, "Transaction not found")
  | some _ =>
    let s1 := commit (removeTransaction s trans_id)
    (s1, true, "Transaction deleted successfully")

/-- app.py lines 1074-1107: `bulk_delete_transactions` — deletes every
matching id and commits, with no budget-sync call. -/
def bulk_delete_transactions (s : State) (transaction_ids : List Nat) :
    State × Bool × String :=
  if transaction_ids.isEmpty then (s, false, "No transaction IDs provided")
  else
    let s1 := { s with session :=
      { s.session with transactions :=
          s.session.transactions.filter (fun t => ¬ transaction_ids.contains t.id) } }
    (commit s1, true, "transactions deleted")

/-- One CSV row of the import endpoint (`csv.DictReader` row); a `none`
field models an absent column (whose `row[...]` access raises `KeyError`,
caught per-row). -/
structure ImportRow where
  date : Option String
  amount : Option ℚ
  vendor : Option String
  description : Option String
  category_id : Option Nat
  payment_method : Option String
deriving DecidableEq, Repr

/-- app.py lines 1136-1143: the `Transaction(...)` built from a CSV row.
`none` when a required column (`date`, `amount`, `vendor`) is missing, in
which case the per-row handler records an error instead.  The currency and
tax amount are not passed by the source; their values here are the column
defaults of the (out-of-excerpt) `Transaction` model, modelled from the
spec: "currency defaults to a fixed default (e.g., \x22INR\x22)", "tax amount
defaults to 0".  Note: no amount validation of any kind is performed. -/
def importRowTransaction (row : ImportRow) : Option Transaction :=
  match row.date, row.amount, row.vendor with
  | some d, some a, some v => some
      { id := 0
        document_id := none
        transaction_date := some d
        amount := a
        currency := "INR"
        vendor_name := v
        description := row.description.getD "Imported from CSV"
        category_id := some (row.category_id.getD 1)
        payment_method := some (row.payment_method.getD "Other")
        tax_amount := 0
        tax_percentage := none }
  | _, _, _ => none

/-- app.py lines 1134-1149: the per-row loop body (row numbers start at 2). -/
def importRowsStep (acc : State × Nat × List String × Nat) (row : ImportRow) :
    State × Nat × List String × Nat :=
  let (s, created, errors, row_num) := acc
  match importRowTransaction row with
  | some t => (addTransaction s t, created + 1, errors, row_num + 1)
  | none => (s, created, errors ++ ["Row " ++ toString row_num ++ ": missing required column"], row_num + 1)

/-- app.py lines 1110-1181: `import_transactions` for a CSV upload — add
every parsable row, commit once, then run the full-recompute
`sync_all_budgets`. -/
def import_transactions (env : Env) (s : State) (rows : List ImportRow) :
    State × Bool × String :=
  let (s1, created, _errors, _) := rows.foldl importRowsStep (s, 0, [], 2)
  let s2 := logEvent (commit s1) .syncAll
  match env.sync_all_budgets with
  | .error e => (rollback s2, false, e)
  | .ok _ => (s2, true, "Imported " ++ toString created ++ " transactions")

/-! ## Concrete fixtures for witnesses and counterexamples -/

/-- An uploaded, not-yet-processed document. -/
def doc1 : Document :=
  { id := 1
    filename := "receipt.pdf"
    original_filename := "receipt.pdf"
    file_path := "uploads/receipt.pdf"
    raw_text := none
    processed := false }

/-- A store holding only `doc1`. -/
def store1 : Store :=
  { documents := [doc1], transactions := [], categories := [], nextTransactionId := 1 }

/-- A clean state (session = database) holding only `doc1`. -/
def st1 : State := { database := store1, session := store1, events := [] }

/-- A benign collaborator environment: extraction succeeds with a fixed
text, field extraction finds nothing, classification answers "Food", every
sync and notification succeeds. -/
def baseEnv : Env :=
  { processFile := fun _ _ => .ok (some "receipt text", none)
    extract_all_data := fun _ => .ok none
    predict_category := fun _ _ => .ok ("Food", 90)
    sync_transaction_budgets := .ok ()
    sync_deleted_transaction_budget := .ok ()
    sync_all_budgets := .ok 0
    notify_document_processed := .ok ()
    notify_transaction_added := .ok ()
    create_notification := .ok () }

/-- Extracted fields holding a vendor but no amount. -/
def fieldsVendorOnly : ExtractedFields :=
  { vendor := some "Shop", amount := none, date := none
    payment_method := none, tax_amount := none, tax_percentage := none }

/-- Extracted fields holding a vendor and the given amount. -/
def fieldsAmount (a : ℚ) : ExtractedFields :=
  { vendor := some "Shop", amount := some a, date := some "2024-01-15"
    payment_method := some "UPI", tax_amount := none, tax_percentage := none }

/-- An already-persisted manual transaction (id 1, category 2). -/
def txn1 : Transaction :=
  { id := 1, document_id := none, transaction_date := some "2024-01-15"
    amount := 250, currency := "INR", vendor_name := "Shop"
    description := "Manual entry", category_id := some 2
    payment_method := some "Cash", tax_amount := 0, tax_percentage := none }

/-- A store holding `txn1` and the category it references. -/
def storeTxn : Store :=
  { documents := [], transactions := [txn1]
    categories := [{ id := 2, name := "Food" }], nextTransactionId := 2 }

/-- A clean state holding `storeTxn`. -/
def stTxn : State := { database := storeTxn, session := storeTxn, events := [] }

/-! ## Projection toolkit -/

@[simp]
theorem swallow_eq (e : Except String Unit) (s : State) : swallow e s = s := by
  cases e <;> rfl

@[simp]
theorem commit_session (s : State) : (commit s).session = s.session := rfl

@[simp]
theorem commit_database (s : State) : (commit s).database = s.session := rfl

@[simp]
theorem commit_events (s : State) : (commit s).events = s.events := rfl

@[simp]
theorem rollback_session (s : State) : (rollback s).session = s.database := rfl

@[simp]
theorem rollback_database (s : State) : (rollback s).database = s.database := rfl

@[simp]
theorem rollback_events (s : State) : (rollback s).events = s.events := rfl

@[simp]
theorem logEvent_session (s : State) (e : Event) : (logEvent s e).session = s.session := rfl

@[simp]
theorem logEvent_database (s : State) (e : Event) : (logEvent s e).database = s.database := rfl

@[simp]
theorem logEvent_events (s : State) (e : Event) : (logEvent s e).events = e :: s.events := rfl

@[simp]
theorem updateDocument_database (s : State) (i : Nat) (f : Document → Document) :
    (updateDocument s i f).database = s.database := rfl

@[simp]
theorem updateDocument_events (s : State) (i : Nat) (f : Document → Document) :
    (updateDocument s i f).events = s.events := rfl

@[simp]
theorem updateDocument_session_transactions (s : State) (i : Nat) (f : Document → Document) :
    (updateDocument s i f).session.transactions = s.session.transactions := rfl

@[simp]
theorem updateDocument_session_categories (s : State) (i : Nat) (f : Document → Document) :
    (updateDocument s i f).session.categories = s.session.categories := rfl

@[simp]
theorem updateDocument_session_nextId (s : State) (i : Nat) (f : Document → Document) :
    (updateDocument s i f).session.nextTransactionId = s.session.nextTransactionId := rfl

@[simp]
theorem updateTransactionRow_database (s : State) (i : Nat) (f : Transaction → Transaction) :
    (updateTransactionRow s i f).database = s.database := rfl

@[simp]
theorem updateTransactionRow_events (s : State) (i : Nat) (f : Transaction → Transaction) :
    (updateTransactionRow s i f).events = s.events := rfl

@[simp]
theorem updateTransactionRow_session_documents (s : State) (i : Nat) (f : Transaction → Transaction) :
    (updateTransactionRow s i f).session.documents = s.session.documents := rfl

@[simp]
theorem updateTransactionRow_session_categories (s : State) (i : Nat) (f : Transaction → Transaction) :
    (updateTransactionRow s i f).session.categories = s.session.categories := rfl

@[simp]
theorem updateTransactionRow_session_transactions (s : State) (i : Nat) (f : Transaction → Transaction) :
    (updateTransactionRow s i f).session.transactions
      = s.session.transactions.map (fun t => if t.id == i then f t else t) := rfl

@[simp]
theorem addTransaction_database (s : State) (t : Transaction) :
    (addTransaction s t).database = s.database := rfl

@[simp]
theorem addTransaction_events (s : State) (t : Transaction) :
    (addTransaction s t).events = s.events := rfl

@[simp]
theorem addTransaction_session_documents (s : State) (t : Transaction) :
    (addTransaction s t).session.documents = s.session.documents := rfl

@[simp]
theorem addTransaction_session_categories (s : State) (t : Transaction) :
    (addTransaction s t).session.categories = s.session.categories := rfl

@[simp]
theorem addTransaction_session_transactions (s : State) (t : Transaction) :
    (addTransaction s t).session.transactions
      = { t with id := s.session.nextTransactionId } :: s.session.transactions := rfl

@[simp]
theorem removeTransaction_database (s : State) (i : Nat) :
    (removeTransaction s i).database = s.database := rfl

@[simp]
theorem removeTransaction_events (s : State) (i : Nat) :
    (removeTransaction s i).events = s.events := rfl

@[simp]
theorem markProcessed_id (d : Document) : (markProcessed d).id = d.id := rfl

@[simp]
theorem markProcessed_processed (d : Document) : (markProcessed d).processed = true := rfl

@[simp]
theorem notifyAfterCommit_session (env : Env) (s : State) (i n : Nat) :
    (notifyAfterCommit env s i n).session = s.session := by
  unfold notifyAfterCommit
  split <;> simp

@[simp]
theorem notifyAfterCommit_database (env : Env) (s : State) (i n : Nat) :
    (notifyAfterCommit env s i n).database = s.database := by
  unfold notifyAfterCommit
  split <;> simp

theorem notifyAfterCommit_events (env : Env) (s : State) (i n : Nat) :
    (notifyAfterCommit env s i n).events
      = if n == 0 then Event.notifyDocumentProcessed i n :: s.events
        else Event.notifyTransactionAdded :: Event.notifyDocumentProcessed i n :: s.events := by
  unfold notifyAfterCommit
  split <;> simp

/-- `find?` over a list mapped by "update the matching elements", when the
update preserves matching: the first match is the updated first match. -/
theorem find?_map_if {α : Type} (p : α → Bool) (f : α → α)
    (hf : ∀ a, p a = true → p (f a) = true) :
    ∀ l : List α, (l.map (fun a => if p a then f a else a)).find? p = (l.find? p).map f := by
  intro l
  induction l with
  | nil => rfl
  | cons h t ih =>
    cases hp : p h with
    | true => simp [List.find?_cons_of_pos, hp, hf h hp]
    | false => simp [List.find?_cons_of_neg, hp, ih]

/-- Looking a document up after updating it with an id-preserving mutation. -/
theorem findDocument_updateDocument (s : State) (i : Nat) (f : Document → Document)
    (hf : ∀ d, (f d).id = d.id) :
    findDocument (updateDocument s i f).session i = (findDocument s.session i).map f := by
  unfold findDocument updateDocument
  exact find?_map_if _ f (fun a ha => by simpa [hf a] using ha) s.session.documents

@[simp]
theorem findDocument_addTransaction (s : State) (t : Transaction) (i : Nat) :
    findDocument (addTransaction s t).session i = findDocument s.session i := rfl

@[simp]
theorem findDocument_commit (s : State) (i : Nat) :
    findDocument (commit s).session i = findDocument s.session i := rfl

@[simp]
theorem findDocument_logEvent (s : State) (e : Event) (i : Nat) :
    findDocument (logEvent s e).session i = findDocument s.session i := rfl

@[simp]
theorem findDocument_notifyAfterCommit (env : Env) (s : State) (i j n : Nat) :
    findDocument (notifyAfterCommit env s j n).session i = findDocument s.session i := by
  unfold findDocument
  rw [notifyAfterCommit_session]

/-! ## Success-path lemmas -/

/-- If `materializeStep` returns inside the `try:` with flag `true`, the
processed document is found (marked processed) in the resulting session. -/
theorem materializeStep_ok_true (env : Env) (s1 : State) (document : Document)
    (text : String) (extracted : ExtractedFields) (r : State × Bool × String)
    (d1 : Document) (hdoc : findDocument s1.session document.id = some d1)
    (hb : materializeStep env s1 document text extracted = .ok r) :
    findDocument r.1.session document.id = some (markProcessed d1) := by
  unfold materializeStep at hb
  cases hpc : env.predict_category (extracted.vendor.getD "Unknown") text with
  | error e =>
    simp only [hpc] at hb
    exact Except.noConfusion hb
  | ok pc =>
    obtain ⟨category_name, confidence⟩ := pc
    simp only [hpc] at hb
    by_cases hamt : truthyAmount extracted.amount
    · simp only [hamt, if_true] at hb
      cases hsync : env.sync_transaction_budgets with
      | error e =>
        simp only [hsync] at hb
        exact Except.noConfusion hb
      | ok u =>
        simp only [hsync] at hb
        have h := Except.ok.inj hb
        subst h
        simp [findDocument_updateDocument _ _ markProcessed (fun d => rfl), hdoc]
    · simp only [hamt, if_false] at hb
      have h := Except.ok.inj hb
      subst h
      simp [findDocument_updateDocument _ _ markProcessed (fun d => rfl), hdoc]

/-- If `extractStep` returns inside the `try:` with flag `true`, the
document is marked processed in the resulting session. -/
theorem extractStep_ok_true (env : Env) (s : State) (document : Document)
    (text : String) (r : State × Bool × String)
    (hdoc : findDocument s.session document.id = some document)
    (hb : extractStep env s document text = .ok r) (ht : r.2.1 = true) :
    ∃ d, findDocument r.1.session document.id = some d ∧ d.processed = true := by
  unfold extractStep at hb
  cases hext : env.extract_all_data text with
  | error e =>
    simp only [hext] at hb
    exact Except.noConfusion hb
  | ok extractedOpt =>
    cases extractedOpt with
    | none =>
      simp only [hext] at hb
      have h := Except.ok.inj hb
      rw [← h] at ht
      simp at ht
    | some extracted =>
      simp only [hext] at hb
      have hdoc1 : findDocument (updateDocument s document.id
          (fun d => { d with raw_text := some text })).session document.id
          = some { document with raw_text := some text } := by
        rw [findDocument_updateDocument s document.id
          (fun d => { d with raw_text := some text }) (fun d => rfl), hdoc]
        rfl
      exact ⟨_, materializeStep_ok_true env _ document text extracted r _ hdoc1 hb, rfl⟩

/-- If `processDocumentBody` returns `ok` with flag `true`, the document is
marked processed in the resulting session. -/
theorem processDocumentBody_ok_true (env : Env) (s : State) (document_id : Nat)
    (r : State × Bool × String)
    (hb : processDocumentBody env s document_id = .ok r) (ht : r.2.1 = true) :
    ∃ d, findDocument r.1.session document_id = some d ∧ d.processed = true := by
  unfold processDocumentBody at hb
  cases hfind : findDocument s.session document_id with
  | none =>
    simp only [hfind] at hb
    have h := Except.ok.inj hb
    rw [← h] at ht
    simp at ht
  | some document =>
    have hid : document.id = document_id := by
      have := List.find?_some hfind
      simpa using this
    simp only [hfind] at hb
    by_cases hproc : document.processed
    · simp only [hproc, if_true] at hb
      have h := Except.ok.inj hb
      rw [← h] at ht
      simp at ht
    · simp only [hproc, if_false] at hb
      cases hpf : env.processFile document.file_path (fileExtension document.filename) with
      | error e =>
        simp only [hpf] at hb
        exact Except.noConfusion hb
      | ok te =>
        obtain ⟨textOpt, errorOpt⟩ := te
        simp only [hpf] at hb
        cases errorOpt with
        | some err =>
          simp only [hpf] at hb
          have h := Except.ok.inj hb
          rw [← h] at ht
          simp at ht
        | none =>
          cases textOpt with
          | none =>
            simp only [hpf] at hb
            have h := Except.ok.inj hb
            rw [← h] at ht
            simp at ht
          | some t =>
            simp only [hpf] at hb
            by_cases hempty : t == ""
            · simp only [hempty, if_true] at hb
              have h := Except.ok.inj hb
              rw [← h] at ht
              simp at ht
            · simp only [hempty, if_false] at hb
              rw [← hid]
              rw [← hid] at hfind
              exact extractStep_ok_true env s document t r hfind hb ht

/-- A successful `process_document` run leaves the document marked
processed in the resulting session. -/
theorem process_document_success_processed (env : Env) (s : State) (document_id : Nat)
    (h : (process_document env s document_id).2.1 = true) :
    ∃ d, findDocument (process_document env s document_id).1.session document_id = some d
      ∧ d.processed = true := by
  unfold process_document at h ⊢
  cases hb : processDocumentBody env s document_id with
  | error p =>
    simp only [hb] at h
    exact Bool.noConfusion h
  | ok r =>
    simp only [hb] at h ⊢
    exact processDocumentBody_ok_true env s document_id r hb h

/-- The already-processed guard (processor.py lines 43-44): the run stops
before any extraction, with no state change at all. -/
theorem process_document_already_processed (env : Env) (s : State) (document_id : Nat)
    (document : Document) (hfind : findDocument s.session document_id = some document)
    (hproc : document.processed = true) :
    process_document env s document_id = (s, false, "Document already processed") := by
  unfold process_document processDocumentBody
  simp only [hfind, hproc, if_true]

/-- Environment whose field extraction yields a vendor-only mapping. -/
def envVendorOnly : Env :=
  { baseEnv with extract_all_data := fun _ => .ok (some fieldsVendorOnly) }

/-- Environment whose field extraction yields a mapping with amount `a`. -/
def envAmount (a : ℚ) : Env :=
  { baseEnv with extract_all_data := fun _ => .ok (some (fieldsAmount a)) }

/-- `doc1` already marked processed. -/
def docProcessed : Document := { doc1 with processed := true }

/-- A clean state holding only the already-processed `docProcessed`. -/
def stProcessed : State :=
  { database := { store1 with documents := [docProcessed] }
    session := { store1 with documents := [docProcessed] }
    events := [] }

/-- Environment where field extraction finds an amount but the budget
synchronizer raises. -/
def envC9 : Env :=
  { envAmount 500 with sync_transaction_budgets := .error "sync boom" }


/-! ## Run-equation lemmas for the soft-failure and materialization paths -/

/-- The state after storing the raw text in the session. -/
def withRawText (s : State) (i : Nat) (text : String) : State :=
  updateDocument s i (fun d => { d with raw_text := some text })

/-- Run equation: null/empty extraction mapping (processor.py lines 71-74). -/
theorem process_document_no_data (env : Env) (s : State) (document_id : Nat)
    (document : Document) (text : String)
    (hfind : findDocument s.session document_id = some document)
    (hproc : document.processed = false)
    (hfile : env.processFile document.file_path (fileExtension document.filename)
      = .ok (some text, none))
    (htext : (text == "") = false)
    (hext : env.extract_all_data text = .ok none) :
    process_document env s document_id
      = (commit (updateDocument (withRawText s document.id text) document.id markProcessed),
         false, "Could not extract data from text") := by
  unfold process_document processDocumentBody extractStep withRawText
  simp only [hfind, hproc, hfile, htext, hext, if_false, Bool.false_eq_true]

/-- Run equation: fields extracted but falsy amount (processor.py lines
111-141, `else` branch of the amount test). -/
theorem process_document_no_amount (env : Env) (s : State) (document_id : Nat)
    (document : Document) (text : String) (extracted : ExtractedFields)
    (category_name : String) (confidence : ℚ)
    (hfind : findDocument s.session document_id = some document)
    (hproc : document.processed = false)
    (hfile : env.processFile document.file_path (fileExtension document.filename)
      = .ok (some text, none))
    (htext : (text == "") = false)
    (hext : env.extract_all_data text = .ok (some extracted))
    (hcat : env.predict_category (extracted.vendor.getD "Unknown") text
      = .ok (category_name, confidence))
    (hamt : truthyAmount extracted.amount = false) :
    process_document env s document_id
      = (notifyAfterCommit env
          (commit (updateDocument (withRawText s document.id text) document.id markProcessed))
          document.id 0,
         true, "Document processed successfully") := by
  unfold process_document processDocumentBody extractStep materializeStep withRawText
  simp only [hfind, hproc, hfile, htext, hext, hcat, hamt, if_false, Bool.false_eq_true]

/-- Run equation: fields extracted with truthy amount and successful sync
(processor.py lines 94-141, transaction-creating branch). -/
theorem process_document_with_amount (env : Env) (s : State) (document_id : Nat)
    (document : Document) (text : String) (extracted : ExtractedFields)
    (category_name : String) (confidence : ℚ)
    (hfind : findDocument s.session document_id = some document)
    (hproc : document.processed = false)
    (hfile : env.processFile document.file_path (fileExtension document.filename)
      = .ok (some text, none))
    (htext : (text == "") = false)
    (hext : env.extract_all_data text = .ok (some extracted))
    (hcat : env.predict_category (extracted.vendor.getD "Unknown") text
      = .ok (category_name, confidence))
    (hamt : truthyAmount extracted.amount = true)
    (hsync : env.sync_transaction_budgets = .ok ()) :
    process_document env s document_id
      = (notifyAfterCommit env
          (logEvent
            (commit (updateDocument
              (addTransaction (withRawText s document.id text)
                (buildTransaction document extracted (extracted.vendor.getD "Unknown")
                  (resolveCategory s.session category_name)))
              document.id markProcessed))
            (.syncTransaction
              (buildTransaction document extracted (extracted.vendor.getD "Unknown")
                (resolveCategory s.session category_name)).category_id
              (buildTransaction document extracted (extracted.vendor.getD "Unknown")
                (resolveCategory s.session category_name)).transaction_date
              none none))
          document.id 1,
         true, "Document processed successfully") := by
  unfold process_document processDocumentBody extractStep materializeStep withRawText
  simp only [hfind, hproc, hfile, htext, hext, hcat, hamt, hsync, if_false, Bool.false_eq_true]
  rfl

/-! ## Batch-processing machinery (C8) -/

/-- Is this event the batch-completion notification? -/
def isBatchEvent : Event → Bool
  | .notifyBatchComplete _ _ => true
  | _ => false

/-- Number of batch-completion notifications in a trace. -/
def batchCount (l : List Event) : Nat := l.countP isBatchEvent

/-- Everything the batch loop needs to know about one `processDocumentBody`
outcome: how the session transactions changed, that ok-results are
committed, and that no batch-completion notification is emitted. -/
def BodyShape (env : Env) (s : State) (i : Nat) :
    Except (State × String) (State × Bool × String) → Prop
  | .ok r =>
      (r.1.session.transactions = s.session.transactions
        ∨ ∃ txn, txn.document_id = some i
            ∧ r.1.session.transactions = txn :: s.session.transactions
            ∧ r.2.1 = true)
      ∧ (s.session = s.database → r.1.session = r.1.database)
      ∧ batchCount r.1.events = batchCount s.events
  | .error (se, _) =>
      (env.sync_transaction_budgets = .ok () → se.database = s.database)
      ∧ batchCount se.events = batchCount s.events

/-- The transaction-creating success path of `materializeStep` conses the
materialized transaction onto the session. -/
theorem exists_cons_of_chain (env : Env) (x s : State) (txn : Transaction) (ev : Event)
    (j n i : Nat) (hdoc : txn.document_id = some i)
    (hx : x.session.transactions = s.session.transactions)
    (hnext : x.session.nextTransactionId = s.session.nextTransactionId) :
    ∃ txn', txn'.document_id = some i
      ∧ (notifyAfterCommit env
          (logEvent (commit (updateDocument (addTransaction x txn) j markProcessed)) ev)
          j n).session.transactions = txn' :: s.session.transactions
      ∧ (true = true) := by
  refine ⟨{ txn with id := x.session.nextTransactionId }, hdoc, ?_, rfl⟩
  simp [hx]

/-- `processDocumentBody` satisfies `BodyShape` on every path. -/
theorem processDocumentBody_shape (env : Env) (s : State) (i : Nat) :
    BodyShape env s i (processDocumentBody env s i) := by
  unfold processDocumentBody
  cases hfind : findDocument s.session i with
  | none => exact ⟨Or.inl rfl, fun h => h, rfl⟩
  | some document =>
    have hid : document.id = i := by
      have := List.find?_some hfind
      simpa using this
    by_cases hproc : document.processed
    · simp only [hproc, if_true]
      exact ⟨Or.inl rfl, fun h => h, rfl⟩
    · simp only [hproc, if_false, Bool.false_eq_true]
      cases hpf : env.processFile document.file_path (fileExtension document.filename) with
      | error e => exact ⟨fun _ => rfl, rfl⟩
      | ok te =>
        obtain ⟨textOpt, errorOpt⟩ := te
        cases errorOpt with
        | some err => exact ⟨Or.inl rfl, fun h => h, rfl⟩
        | none =>
          cases textOpt with
          | none => exact ⟨Or.inl rfl, fun h => h, rfl⟩
          | some t =>
            by_cases hempty : t == ""
            · simp only [hempty, if_true]
              exact ⟨Or.inl rfl, fun h => h, rfl⟩
            · simp only [hempty, if_false, Bool.false_eq_true]
              unfold extractStep
              cases hext : env.extract_all_data t with
              | error e =>
                simp only [hext]
                exact ⟨fun _ => rfl, rfl⟩
              | ok eOpt =>
                cases eOpt with
                | none =>
                  simp only [hext]
                  exact ⟨Or.inl rfl, fun _ => rfl, rfl⟩
                | some extracted =>
                  simp only [hext]
                  unfold materializeStep
                  cases hcat : env.predict_category (extracted.vendor.getD "Unknown") t with
                  | error e =>
                    simp only [hcat]
                    exact ⟨fun _ => rfl, rfl⟩
                  | ok pc =>
                    obtain ⟨category_name, confidence⟩ := pc
                    simp only [hcat]
                    by_cases hamt : truthyAmount extracted.amount
                    · simp only [hamt, if_true]
                      cases hsync : env.sync_transaction_budgets with
                      | error e =>
                        simp only [hsync]
                        refine ⟨fun h => absurd (h ▸ hsync) (by simp), ?_⟩
                        simp [batchCount, List.countP_cons, isBatchEvent]
                      | ok u =>
                        simp only [hsync]
                        refine ⟨Or.inr (exists_cons_of_chain env _ s _ _ document.id 1 i
                          ?_ ?_ ?_), fun h => by simp, ?_⟩
                        · simp [buildTransaction, hid]
                        · simp
                        · simp
                        · simp [batchCount, notifyAfterCommit_events, List.countP_cons, isBatchEvent]
                    · simp only [hamt, if_false, Bool.false_eq_true]
                      refine ⟨Or.inl (by simp), fun h => by simp, ?_⟩
                      simp [batchCount, notifyAfterCommit_events, List.countP_cons, isBatchEvent]

/-- Lift of `BodyShape` through the exception handler: what one
`process_document` call does to the session transactions, the
session/database agreement, and the batch-notification count. -/
theorem process_document_shape (env : Env) (s : State) (i : Nat) :
    (s.session = s.database →
        (process_document env s i).1.session = (process_document env s i).1.database)
    ∧ (env.sync_transaction_budgets = .ok () → s.session = s.database →
        ((process_document env s i).1.session.transactions = s.session.transactions
          ∨ ∃ txn, txn.document_id = some i
              ∧ (process_document env s i).1.session.transactions
                  = txn :: s.session.transactions
              ∧ (process_document env s i).2.1 = true))
    ∧ batchCount (process_document env s i).1.events = batchCount s.events := by
  have hshape := processDocumentBody_shape env s i
  unfold process_document
  cases hb : processDocumentBody env s i with
  | ok r =>
    rw [hb] at hshape
    exact ⟨hshape.2.1, fun _ => fun h => hshape.1, hshape.2.2⟩
  | error p =>
    obtain ⟨se, msg⟩ := p
    rw [hb] at hshape
    refine ⟨fun _ => by simp, fun hsync hsd => Or.inl ?_, ?_⟩
    · simp only [swallow_eq, logEvent_session, rollback_session]
      rw [hshape.1 hsync, ← hsd]
    · simp only [swallow_eq, logEvent_events]
      simp only [batchCount, List.countP_cons, isBatchEvent]
      simpa [batchCount, isBatchEvent] using hshape.2

/-- One batch iteration returns exactly the state of the inner
`process_document` call. -/
theorem processBatchStep_state (env : Env) (s : State) (results : BatchResults) (j : Nat) :
    (processBatchStep env (s, results) j).1 = (process_document env s j).1 := by
  unfold processBatchStep
  cases hpd : process_document env s j with
  | mk s1 bm =>
    obtain ⟨ok, msg⟩ := bm
    simp only [hpd]
    cases ok
    · rfl
    · split <;> (try split) <;> rfl

/-- One batch iteration appends the id to exactly one of the two outcome
lists (and never touches the other). -/
theorem processBatchStep_lists (env : Env) (s : State) (results : BatchResults) (j : Nat) :
    ((processBatchStep env (s, results) j).2.success = results.success ++ [j]
      ∧ (processBatchStep env (s, results) j).2.failed = results.failed)
    ∨ (∃ e, (processBatchStep env (s, results) j).2.success = results.success
        ∧ (processBatchStep env (s, results) j).2.failed = results.failed ++ [(j, e)]) := by
  unfold processBatchStep
  cases hpd : process_document env s j with
  | mk s1 bm =>
    obtain ⟨ok, msg⟩ := bm
    simp only [hpd]
    cases ok
    · exact Or.inr ⟨msg, rfl, rfl⟩
    · split <;> (try split) <;>
        first
        | exact Or.inl ⟨rfl, rfl⟩
        | exact Or.inr ⟨msg, rfl, rfl⟩

/-- Folding the batch loop: every processed id lands in `success` or
`failed`, and the two lengths account for the whole input list. -/
theorem processBatch_fold_counts (env : Env) :
    ∀ (ids : List Nat) (s : State) (acc : BatchResults),
      (ids.foldl (processBatchStep env) (s, acc)).2.success.length
        + (ids.foldl (processBatchStep env) (s, acc)).2.failed.length
        = acc.success.length + acc.failed.length + ids.length := by
  intro ids
  induction ids with
  | nil => intro s acc; simp
  | cons j rest ih =>
    intro s acc
    rw [List.foldl_cons]
    cases hstep : processBatchStep env (s, acc) j with
    | mk s1 acc1 =>
      have hl := processBatchStep_lists env s acc j
      rw [hstep] at hl
      have := ih s1 acc1
      rcases hl with ⟨h1, h2⟩ | ⟨e, h1, h2⟩ <;>
        (simp only at h1 h2
         rw [h1, h2] at this
         simp only [List.length_append, List.length_cons, List.length_nil] at this ⊢
         omega)

/-- Folding the batch loop: `success` and `failed` entries are never
dropped, and every input id is accounted for. -/
theorem processBatch_fold_mem (env : Env) :
    ∀ (ids : List Nat) (s : State) (acc : BatchResults) (i : Nat),
      ((i ∈ acc.success ∨ ∃ e, (i, e) ∈ acc.failed) ∨ i ∈ ids) →
      (i ∈ (ids.foldl (processBatchStep env) (s, acc)).2.success
        ∨ ∃ e, (i, e) ∈ (ids.foldl (processBatchStep env) (s, acc)).2.failed) := by
  intro ids
  induction ids with
  | nil =>
    intro s acc i h
    rcases h with h | h
    · simpa using h
    · simp at h
  | cons j rest ih =>
    intro s acc i h
    rw [List.foldl_cons]
    cases hstep : processBatchStep env (s, acc) j with
    | mk s1 acc1 =>
      have hl := processBatchStep_lists env s acc j
      rw [hstep] at hl
      simp only at hl
      apply ih s1 acc1 i
      rcases h with (h | ⟨e, he⟩) | h
      · left
        left
        rcases hl with ⟨h1, -⟩ | ⟨e, h1, -⟩ <;> rw [h1] <;> simp [h]
      · left
        right
        rcases hl with ⟨-, h2⟩ | ⟨e', -, h2⟩ <;> rw [h2] <;> exact ⟨e, by simp [he]⟩
      · rcases List.mem_cons.mp h with rfl | hrest
        · left
          rcases hl with ⟨h1, -⟩ | ⟨e, -, h2⟩
          · left
            rw [h1]
            simp
          · right
            exact ⟨e, by rw [h2]; simp⟩
        · right
          exact hrest

/-- Folding the batch loop never emits a batch-completion notification (that
only happens after the loop). -/
theorem processBatch_fold_batchCount (env : Env) :
    ∀ (ids : List Nat) (s : State) (acc : BatchResults),
      batchCount ((ids.foldl (processBatchStep env) (s, acc)).1.events)
        = batchCount s.events := by
  intro ids
  induction ids with
  | nil => intro s acc; rfl
  | cons j rest ih =>
    intro s acc
    rw [List.foldl_cons]
    cases hstep : processBatchStep env (s, acc) j with
    | mk s1 acc1 =>
      have hst := processBatchStep_state env s acc j
      rw [hstep] at hst
      simp only at hst
      have hev := (process_document_shape env s j).2.2
      rw [ih s1 acc1, hst, hev]

/-- Value equation for one batch iteration, phrased with projections so the
loop body need not be unfolded inside nested folds. -/
theorem processBatchStep_eq (env : Env) (s : State) (acc : BatchResults) (j : Nat) :
    processBatchStep env (s, acc) j
      = if (process_document env s j).2.1 = true
        then
          match findDocument (process_document env s j).1.session j with
          | some _ => ((process_document env s j).1,
              { acc with
                  success := acc.success ++ [j],
                  total_transactions := acc.total_transactions
                    + countTransactionsFor (process_document env s j).1.session j })
          | none => ((process_document env s j).1,
              { acc with success := acc.success ++ [j] })
        else ((process_document env s j).1,
          { acc with failed := acc.failed ++ [(j, (process_document env s j).2.2)] }) := rfl

/-- Folding the batch loop with a healthy synchronizer, starting from a
clean session, over distinct ids that no existing transaction references:
the accumulated `total_transactions` equals the number of transactions the
loop added to the store. -/
theorem processBatch_fold_total (env : Env) (hsync : env.sync_transaction_budgets = .ok ()) :
    ∀ (ids : List Nat) (s : State) (acc : BatchResults),
      s.session = s.database →
      ids.Nodup →
      (∀ t ∈ s.session.transactions, ∀ j ∈ ids, t.document_id ≠ some j) →
      (ids.foldl (processBatchStep env) (s, acc)).2.total_transactions
          + s.session.transactions.length
        = acc.total_transactions
          + (ids.foldl (processBatchStep env) (s, acc)).1.session.transactions.length := by
  intro ids
  induction ids with
  | nil =>
    intro s acc hsd hnd href
    simp [Nat.add_comm]
  | cons j rest ih =>
    intro s acc hsd hnd href
    rw [List.foldl_cons]
    have hshape := process_document_shape env s j
    have hsd1 := hshape.1 hsd
    have htx := hshape.2.1 hsync hsd
    cases hpd : process_document env s j with
    | mk s1 bm =>
      obtain ⟨ok, msg⟩ := bm
      rw [hpd] at hsd1 htx
      simp only at hsd1 htx
      have hndr : rest.Nodup := (List.nodup_cons.mp hnd).2
      have hjrest : j ∉ rest := (List.nodup_cons.mp hnd).1
      rw [processBatchStep_eq]
      simp only [hpd]
      cases ok with
      | false =>
        simp only [Bool.false_eq_true, if_false]
        have hunch : s1.session.transactions = s.session.transactions := by
          rcases htx with h | ⟨txn, -, -, hflag⟩
          · exact h
          · exact absurd hflag (by simp)
        have href1 : ∀ t ∈ s1.session.transactions, ∀ j' ∈ rest, t.document_id ≠ some j' := by
          rw [hunch]
          exact fun t ht j' hj' => href t ht j' (List.mem_cons_of_mem _ hj')
        have hrec := ih s1 { acc with failed := acc.failed ++ [(j, msg)] } hsd1 hndr href1
        simp only at hrec
        have hlen : s1.session.transactions.length = s.session.transactions.length := by
          rw [hunch]
        omega
      | true =>
        have hok : (process_document env s j).2.1 = true := by rw [hpd]
        have hfound := process_document_success_processed env s j hok
        rw [hpd] at hfound
        simp only at hfound
        obtain ⟨d, hd, -⟩ := hfound
        rw [if_pos rfl]
        simp only [hd]
        rcases htx with hunch | ⟨txn, hdoc, hcons, -⟩
        · have hcount : countTransactionsFor s1.session j = 0 := by
            unfold countTransactionsFor
            rw [hunch, List.length_eq_zero]
            refine List.filter_eq_nil.mpr fun t ht => ?_
            have := href t ht j (List.mem_cons_self j rest)
            simpa using this
          have href1 : ∀ t ∈ s1.session.transactions, ∀ j' ∈ rest, t.document_id ≠ some j' := by
            rw [hunch]
            exact fun t ht j' hj' => href t ht j' (List.mem_cons_of_mem _ hj')
          have hrec := ih s1
            { acc with
                success := acc.success ++ [j],
                total_transactions :=
                  acc.total_transactions + countTransactionsFor s1.session j }
            hsd1 hndr href1
          simp only at hrec
          have hlen : s1.session.transactions.length = s.session.transactions.length := by
            rw [hunch]
          rw [hcount] at hrec ⊢
          omega
        · have hpred : (txn.document_id == some j) = true := by
            rw [hdoc]
            simp
          have hcount : countTransactionsFor s1.session j = 1 := by
            unfold countTransactionsFor
            rw [hcons, List.filter_cons, if_pos hpred]
            have hz : (s.session.transactions.filter
                (fun t => t.document_id == some j)).length = 0 := by
              rw [List.length_eq_zero]
              refine List.filter_eq_nil.mpr fun t ht => ?_
              have := href t ht j (List.mem_cons_self j rest)
              simpa using this
            simp [hz]
          have href1 : ∀ t ∈ s1.session.transactions, ∀ j' ∈ rest, t.document_id ≠ some j' := by
            rw [hcons]
            intro t ht j' hj'
            rcases List.mem_cons.mp ht with rfl | ht'
            · rw [hdoc]
              intro hcontra
              have hjj : j = j' := Option.some.inj hcontra
              exact hjrest (by rw [hjj]; exact hj')
            · exact href t ht' j' (List.mem_cons_of_mem _ hj')
          have hrec := ih s1
            { acc with
                success := acc.success ++ [j],
                total_transactions :=
                  acc.total_transactions + countTransactionsFor s1.session j }
            hsd1 hndr href1
          simp only at hrec
          have hlen : s1.session.transactions.length = s.session.transactions.length + 1 := by
            rw [hcons]
            rfl
          rw [hcount] at hrec ⊢
          omega

/-! ## Amount-positivity machinery (C2) -/

/-- Every transaction in the store has a strictly positive amount. -/
def PosAmounts (st : Store) : Prop := ∀ t ∈ st.transactions, 0 < t.amount

/-- Row mutations that do not touch `amount` preserve positivity. -/
theorem posAmounts_updateRow (s : State) (tid : Nat) (g : Transaction → Transaction)
    (hg : ∀ t, (g t).amount = t.amount) (hs : PosAmounts s.session) :
    PosAmounts (updateTransactionRow s tid g).session := by
  intro t ht
  simp only [updateTransactionRow_session_transactions, List.mem_map] at ht
  obtain ⟨u, hu, rfl⟩ := ht
  split
  · rw [hg]
    exact hs u hu
  · exact hs u hu

/-- Adding a positive-amount transaction preserves positivity. -/
theorem posAmounts_add (s : State) (txn : Transaction) (h : 0 < txn.amount)
    (hs : PosAmounts s.session) : PosAmounts (addTransaction s txn).session := by
  intro t ht
  simp only [addTransaction_session_transactions, List.mem_cons] at ht
  rcases ht with rfl | ht
  · exact h
  · exact hs t ht

/-- `updateTransactionTail` (the description/payment/tax updates, commit and
optional sync of the PUT routes) preserves amount positivity in both
stores. -/
theorem updateTransactionTail_pos (env : Env) (s : State) (trans_id : Nat)
    (data : UpdateTransactionData) (oc : Option Nat) (od : Option String) (ws : Bool)
    (hs : PosAmounts s.session) (hd : PosAmounts s.database) :
    PosAmounts (updateTransactionTail env s trans_id data oc od ws).1.session
    ∧ PosAmounts (updateTransactionTail env s trans_id data oc od ws).1.database := by
  unfold updateTransactionTail
  cases data.description <;> cases data.payment_method <;> cases data.tax_amount <;>
    (dsimp only
     split <;> try split) <;>
    constructor <;>
      (simp only [logEvent_session, logEvent_database, commit_session, commit_database,
        rollback_session, rollback_database, updateTransactionRow_database]
       repeat refine posAmounts_updateRow _ _ _ (fun t => rfl) ?_
       first
       | exact hs
       | exact hd)

/-- `updateTransactionFields` preserves amount positivity in both stores. -/
theorem updateTransactionFields_pos (env : Env) (s : State) (trans_id : Nat)
    (data : UpdateTransactionData) (oc : Option Nat) (od : Option String) (ws : Bool)
    (hs : PosAmounts s.session) (hd : PosAmounts s.database) :
    PosAmounts (updateTransactionFields env s trans_id data oc od ws).1.session
    ∧ PosAmounts (updateTransactionFields env s trans_id data oc od ws).1.database := by
  unfold updateTransactionFields
  cases data.vendor_name <;> cases data.transaction_date <;> dsimp only <;>
    (try split) <;> (try split) <;>
    first
    | (constructor <;>
        (try simp only [updateTransactionRow_database]
         repeat refine posAmounts_updateRow _ _ _ (fun t => rfl) ?_
         first
         | exact hs
         | exact hd))
    | (apply updateTransactionTail_pos <;>
        (try simp only [updateTransactionRow_database]
         repeat refine posAmounts_updateRow _ _ _ (fun t => rfl) ?_
         first
         | exact hs
         | exact hd))

/-- The manual-entry POST only ever persists strictly positive amounts. -/
theorem create_transaction_pos (env : Env) (s : State) (data : CreateTransactionData)
    (today : String) (hs : PosAmounts s.session) (hd : PosAmounts s.database) :
    PosAmounts (create_transaction env s data today).1.session
    ∧ PosAmounts (create_transaction env s data today).1.database := by
  unfold create_transaction
  dsimp only
  (try split) <;> (try split) <;> (try split) <;> (try split) <;> (try split) <;>
    (try split) <;>
    first
    | exact ⟨hs, hd⟩
    | exact ⟨posAmounts_add _ _ (not_le.mp ‹¬ data.amount.getD 0 ≤ 0›) hs,
        posAmounts_add _ _ (not_le.mp ‹¬ data.amount.getD 0 ≤ 0›) hs⟩

/-- The update PUT only ever persists strictly positive amounts. -/
theorem update_transaction_pos (env : Env) (s : State) (trans_id : Nat)
    (data : UpdateTransactionData) (hs : PosAmounts s.session) (hd : PosAmounts s.database) :
    PosAmounts (update_transaction env s trans_id data).1.session
    ∧ PosAmounts (update_transaction env s trans_id data).1.database := by
  unfold update_transaction
  dsimp only
  (try split) <;> (try split) <;> (try split) <;>
    first
    | exact ⟨hs, hd⟩
    | exact updateTransactionFields_pos env s trans_id _ _ _ _ hs hd
    | (rename_i a ha hle
       refine updateTransactionFields_pos env _ trans_id _ _ _ _ ?_ hd
       intro t ht
       simp only [updateTransactionRow_session_transactions, List.mem_map] at ht
       obtain ⟨u, hu, rfl⟩ := ht
       split
       · exact not_le.mp hle
       · exact hs u hu)

/-! ## Claims -/

/-- Environment where the "document processed" notification sink raises. -/
def envNotifyRaise : Env :=
  { envAmount 100 with notify_document_processed := .error "smtp down" }

/-- Environment where the field extractor itself raises. -/
def envExtractRaise : Env :=
  { baseEnv with extract_all_data := fun _ => .error "db connection lost" }

/-- C1 (amended): a soft failure marks the document `processed=true`,
commits, and creates zero transactions; the null/empty-mapping case indeed
returns `(False, "Could not extract data from text")`, but the
fields-without-amount case returns `(True, "Document processed
successfully")` — not a `(False, message)` failure result. -/
theorem C1_soft_failure_amended (env : Env) (s : State) (document_id : Nat)
    (document : Document) (text : String)
    (hfind : findDocument s.session document_id = some document)
    (hproc : document.processed = false)
    (hfile : env.processFile document.file_path (fileExtension document.filename)
      = .ok (some text, none))
    (htext : (text == "") = false) :
    (env.extract_all_data text = .ok none →
        (process_document env s document_id).2 = (false, "Could not extract data from text")
        ∧ (∃ d, findDocument (process_document env s document_id).1.session document_id
            = some d ∧ d.processed = true)
        ∧ (process_document env s document_id).1.session.transactions = s.session.transactions
        ∧ (process_document env s document_id).1.database
            = (process_document env s document_id).1.session)
    ∧ (∀ extracted category_name confidence,
        env.extract_all_data text = .ok (some extracted) →
        env.predict_category (extracted.vendor.getD "Unknown") text
          = .ok (category_name, confidence) →
        extracted.amount = none →
        (process_document env s document_id).2 = (true, "Document processed successfully")
        ∧ (∃ d, findDocument (process_document env s document_id).1.session document_id
            = some d ∧ d.processed = true)
        ∧ (process_document env s document_id).1.session.transactions = s.session.transactions
        ∧ (process_document env s document_id).1.database
            = (process_document env s document_id).1.session) := by
  have hid : document.id = document_id := by
    have := List.find?_some hfind
    simpa using this
  have hfind' : findDocument s.session document.id = some document := by rw [hid]; exact hfind
  constructor
  · intro hext
    rw [process_document_no_data env s document_id document text hfind hproc hfile htext hext]
    refine ⟨rfl, ?_, by simp [withRawText], by simp⟩
    rw [← hid]
    simp only [findDocument_commit]
    rw [findDocument_updateDocument _ document.id markProcessed (fun d => rfl)]
    unfold withRawText
    rw [findDocument_updateDocument s document.id
      (fun d => { d with raw_text := some text }) (fun d => rfl), hfind']
    exact ⟨_, rfl, rfl⟩
  · intro extracted category_name confidence hext hcat hnone
    have hamt : truthyAmount extracted.amount = false := by rw [hnone]; rfl
    rw [process_document_no_amount env s document_id document text extracted
      category_name confidence hfind hproc hfile htext hext hcat hamt]
    refine ⟨rfl, ?_, by simp [withRawText], by simp⟩
    rw [← hid]
    simp only [findDocument_notifyAfterCommit, findDocument_commit]
    rw [findDocument_updateDocument _ document.id markProcessed (fun d => rfl)]
    unfold withRawText
    rw [findDocument_updateDocument s document.id
      (fun d => { d with raw_text := some text }) (fun d => rfl), hfind']
    exact ⟨_, rfl, rfl⟩

/-- Counterexample for C1 as stated: for a document whose extracted fields
contain a vendor but no amount, the returned success flag is `true`, not
`false` (with the document still marked processed and zero transactions). -/
theorem C1_counterexample :
    (process_document envVendorOnly st1 1).2 = (true, "Document processed successfully")
    ∧ findDocument (process_document envVendorOnly st1 1).1.session 1
        = some { doc1 with raw_text := some "receipt text", processed := true }
    ∧ (process_document envVendorOnly st1 1).1.session.transactions = [] := by
  decide

/-- Witness for C1 (amended): concrete instances of both soft-failure
branches. -/
theorem C1_witness :
    ((process_document baseEnv st1 1).2 = (false, "Could not extract data from text")
      ∧ (process_document baseEnv st1 1).1.session.transactions = [])
    ∧ ((process_document envVendorOnly st1 1).2 = (true, "Document processed successfully")
      ∧ (process_document envVendorOnly st1 1).1.session.transactions = []) := by
  have h1 := (C1_soft_failure_amended baseEnv st1 1 doc1 "receipt text"
    (by decide) rfl rfl rfl).1 rfl
  have h2 := (C1_soft_failure_amended envVendorOnly st1 1 doc1 "receipt text"
    (by decide) rfl rfl rfl).2 fieldsVendorOnly "Food" 90 rfl rfl rfl
  exact ⟨⟨h1.1, h1.2.2.1⟩, ⟨h2.1, h2.2.2.1⟩⟩

/-- C3: for every document already marked `processed=true`, `process_document`
returns `(False, "Document already processed")` and performs no side
effects at all (the returned state is the input state: no text extraction
recorded, no document mutation, no new transaction, no events); hence a
second call after a first call that returned success yields exactly this
result. -/
theorem C3_process_document_idempotent :
    (∀ (env : Env) (s : State) (document_id : Nat) (document : Document),
        findDocument s.session document_id = some document →
        document.processed = true →
        process_document env s document_id = (s, false, "Document already processed"))
    ∧ (∀ (env : Env) (s : State) (document_id : Nat),
        (process_document env s document_id).2.1 = true →
        process_document env (process_document env s document_id).1 document_id
          = ((process_document env s document_id).1, false, "Document already processed")) := by
  constructor
  · exact fun env s document_id document hfind hproc =>
      process_document_already_processed env s document_id document hfind hproc
  · intro env s document_id h
    obtain ⟨d, hd, hp⟩ := process_document_success_processed env s document_id h
    exact process_document_already_processed env _ document_id d hd hp

/-- Witness for C3: a concrete already-processed document is refused with
no state change, and a second call right after a successful first call is
refused the same way. -/
theorem C3_witness :
    (process_document baseEnv stProcessed 1 = (stProcessed, false, "Document already processed"))
    ∧ (process_document envVendorOnly (process_document envVendorOnly st1 1).1 1
        = ((process_document envVendorOnly st1 1).1, false, "Document already processed")) := by
  constructor
  · exact C3_process_document_idempotent.1 baseEnv stProcessed 1 docProcessed (by decide) rfl
  · exact C3_process_document_idempotent.2 envVendorOnly st1 1 (by decide)

/-- C4: when the text extractor returns an error, or returns no/empty text,
`process_document` returns `(False, <error or "No text extracted from
document">)` and the state is completely unchanged — the document stays
`processed=false` and eligible for retry, no transaction is created, no
commit happens, no event is emitted. -/
theorem C4_extractor_failure_leaves_document_retryable (env : Env) (s : State)
    (document_id : Nat) (document : Document)
    (hfind : findDocument s.session document_id = some document)
    (hproc : document.processed = false) :
    (∀ textOpt err,
        env.processFile document.file_path (fileExtension document.filename) = .ok (textOpt, some err) →
        process_document env s document_id = (s, false, err))
    ∧ (env.processFile document.file_path (fileExtension document.filename) = .ok (none, none) →
        process_document env s document_id = (s, false, "No text extracted from document"))
    ∧ (env.processFile document.file_path (fileExtension document.filename) = .ok (some "", none) →
        process_document env s document_id = (s, false, "No text extracted from document")) := by
  refine ⟨?_, ?_, ?_⟩
  · intro textOpt err hpf
    unfold process_document processDocumentBody
    simp only [hfind, hproc, hpf, if_false, Bool.false_eq_true]
  · intro hpf
    unfold process_document processDocumentBody
    simp only [hfind, hproc, hpf, if_false, Bool.false_eq_true]
  · intro hpf
    unfold process_document processDocumentBody
    simp only [hfind, hproc, hpf, if_false, Bool.false_eq_true]
    rfl

/-- Witness for C4: a concrete document whose extractor reports
"unsupported format" is left untouched. -/
theorem C4_witness :
    process_document { baseEnv with processFile := fun _ _ => .ok (none, some "unsupported format") } st1 1
      = (st1, false, "unsupported format") := by
  exact (C4_extractor_failure_leaves_document_retryable
    { baseEnv with processFile := fun _ _ => .ok (none, some "unsupported format") }
    st1 1 doc1 (by decide) rfl).1 none "unsupported format" rfl

/-- C5 (amended): no exception crosses `process_document` — any exception
reaching the `try:` boundary (and the fallible stages are exactly text
extraction, field extraction, categorization and budget sync) triggers a
session rollback and is converted to `(False, message)`; exceptions of the
notification stages, however, are caught locally, trigger no rollback, and
leave the (possibly successful) result untouched. -/
theorem C5_exception_policy :
    (∀ (env : Env) (s : State) (document_id : Nat) (se : State) (msg : String),
        processDocumentBody env s document_id = .error (se, msg) →
        process_document env s document_id
          = (logEvent (rollback se) (.notifyFailure msg), false, msg)
        ∧ (process_document env s document_id).1.session
            = (process_document env s document_id).1.database)
    ∧ (∀ (env : Env) (s : State) (document_id : Nat),
        (∀ p x, ∃ v, env.processFile p x = .ok v) →
        (∀ t, ∃ v, env.extract_all_data t = .ok v) →
        (∀ v t, ∃ w, env.predict_category v t = .ok w) →
        env.sync_transaction_budgets = .ok () →
        ∃ r, processDocumentBody env s document_id = .ok r) := by
  constructor
  · intro env s document_id se msg hb
    have hrun : process_document env s document_id
        = (logEvent (rollback se) (.notifyFailure msg), false, msg) := by
      unfold process_document
      rw [hb]
      simp
    exact ⟨hrun, by rw [hrun]; simp⟩
  · intro env s document_id hpf hext hcat hsync
    unfold processDocumentBody
    cases hfind : findDocument s.session document_id with
    | none => exact ⟨_, rfl⟩
    | some document =>
      by_cases hproc : document.processed
      · simp only [hproc, if_true]
        exact ⟨_, rfl⟩
      · simp only [hproc, if_false, Bool.false_eq_true]
        obtain ⟨⟨textOpt, errorOpt⟩, hv⟩ :=
          hpf document.file_path (fileExtension document.filename)
        rw [hv]
        cases errorOpt with
        | some err => exact ⟨_, rfl⟩
        | none =>
          cases textOpt with
          | none => exact ⟨_, rfl⟩
          | some t =>
            by_cases hempty : t == ""
            · simp only [hempty, if_true]
              exact ⟨_, rfl⟩
            · simp only [hempty, if_false, Bool.false_eq_true]
              unfold extractStep
              obtain ⟨eOpt, he⟩ := hext t
              cases eOpt with
              | none =>
                simp only [he]
                exact ⟨_, rfl⟩
              | some extracted =>
                simp only [he]
                unfold materializeStep
                obtain ⟨⟨category_name, confidence⟩, hc⟩ :=
                  hcat (extracted.vendor.getD "Unknown") t
                simp only [hc]
                by_cases hamt : truthyAmount extracted.amount
                · simp only [hamt, if_true, hsync]
                  exact ⟨_, rfl⟩
                · simp only [hamt, if_false, Bool.false_eq_true]
                  exact ⟨_, rfl⟩

/-- Counterexample for C5 as stated: an exception raised during the
notification stage of `process_document` is caught but is *not* converted
to a `(False, message)` result and triggers no rollback — the call still
returns `(True, "Document processed successfully")`. -/
theorem C5_counterexample :
    envNotifyRaise.notify_document_processed = .error "smtp down"
    ∧ (process_document envNotifyRaise st1 1).2 = (true, "Document processed successfully") := by
  exact ⟨rfl, by decide⟩

/-- Witness for C5 (amended): a concrete raising field extractor is
converted to `(False, message)`, and with all stages healthy the body
finishes without reaching the handler. -/
theorem C5_witness :
    (process_document envExtractRaise st1 1).2 = (false, "db connection lost")
    ∧ (∃ r, processDocumentBody baseEnv st1 1 = .ok r) := by
  constructor
  · have h := (C5_exception_policy.1 envExtractRaise st1 1
      (withRawText st1 1 "receipt text") "db connection lost" rfl).1
    rw [h]
  · exact C5_exception_policy.2 baseEnv st1 1
      (fun p x => ⟨(some "receipt text", none), rfl⟩)
      (fun t => ⟨none, rfl⟩)
      (fun v t => ⟨("Food", 90), rfl⟩)
      rfl

/-- C7 (amended): with the classifier answering normally and a healthy
sync, exactly one transaction is created when the extracted amount is
present *and truthy (nonzero)* — with vendor defaulting to `"Unknown"`,
description `"Extracted from <original filename>"`, currency the fixed
`"INR"`, tax amount defaulting to 0, and date/payment method copied — and
no transaction is created when the amount is absent, or present but zero
(Python falsy). -/
theorem C7_materialization_amended (env : Env) (s : State) (document_id : Nat)
    (document : Document) (text : String) (extracted : ExtractedFields)
    (category_name : String) (confidence : ℚ)
    (hfind : findDocument s.session document_id = some document)
    (hproc : document.processed = false)
    (hfile : env.processFile document.file_path (fileExtension document.filename)
      = .ok (some text, none))
    (htext : (text == "") = false)
    (hext : env.extract_all_data text = .ok (some extracted))
    (hcat : env.predict_category (extracted.vendor.getD "Unknown") text
      = .ok (category_name, confidence))
    (hsync : env.sync_transaction_budgets = .ok ()) :
    (∀ a, extracted.amount = some a → a ≠ 0 →
        ∃ cid, (process_document env s document_id).1.session.transactions
          = { id := s.session.nextTransactionId
              document_id := some document_id
              transaction_date := extracted.date
              amount := a
              currency := "INR"
              vendor_name := extracted.vendor.getD "Unknown"
              description := "Extracted from " ++ document.original_filename
              category_id := cid
              payment_method := extracted.payment_method
              tax_amount := extracted.tax_amount.getD 0
              tax_percentage := extracted.tax_percentage } :: s.session.transactions)
    ∧ (extracted.amount = none →
        (process_document env s document_id).1.session.transactions
          = s.session.transactions)
    ∧ (extracted.amount = some 0 →
        (process_document env s document_id).1.session.transactions
          = s.session.transactions) := by
  have hid : document.id = document_id := by
    have := List.find?_some hfind
    simpa using this
  refine ⟨?_, ?_, ?_⟩
  · intro a ha hnz
    have hamt : truthyAmount extracted.amount = true := by
      rw [ha]
      simpa [truthyAmount] using hnz
    rw [process_document_with_amount env s document_id document text extracted
      category_name confidence hfind hproc hfile htext hext hcat hamt hsync]
    refine ⟨(resolveCategory s.session category_name).map (fun c => c.id), ?_⟩
    simp [withRawText, buildTransaction, ha, hid]
  · intro hnone
    have hamt : truthyAmount extracted.amount = false := by rw [hnone]; rfl
    rw [process_document_no_amount env s document_id document text extracted
      category_name confidence hfind hproc hfile htext hext hcat hamt]
    simp [withRawText]
  · intro hzero
    have hamt : truthyAmount extracted.amount = false := by rw [hzero]; rfl
    rw [process_document_no_amount env s document_id document text extracted
      category_name confidence hfind hproc hfile htext hext hcat hamt]
    simp [withRawText]

/-- Counterexample for C7 as stated: extracted fields that *include* an
amount equal to 0 produce no transaction at all (the Python gate is
`if amount:` — truthiness, not presence), while the run still reports
success. -/
theorem C7_counterexample :
    (fieldsAmount 0).amount = some 0
    ∧ (process_document (envAmount 0) st1 1).1.session.transactions = []
    ∧ (process_document (envAmount 0) st1 1).2.1 = true := by
  decide

/-- Witness for C7 (amended): a concrete nonzero amount materializes the
fully mapped transaction. -/
theorem C7_witness :
    ∃ cid, (process_document (envAmount 1200) st1 1).1.session.transactions
      = [{ id := 1
           document_id := some 1
           transaction_date := some "2024-01-15"
           amount := 1200
           currency := "INR"
           vendor_name := "Shop"
           description := "Extracted from receipt.pdf"
           category_id := cid
           payment_method := some "UPI"
           tax_amount := 0
           tax_percentage := none }] := by
  have h := (C7_materialization_amended (envAmount 1200) st1 1 doc1 "receipt text"
    (fieldsAmount 1200) "Food" 90 (by decide) rfl rfl rfl rfl rfl rfl).1 1200 rfl
    (by norm_num)
  exact h

/-- C10: when the predicted category name matches no stored category and no
category named "Other" exists either, the transaction (for a truthy amount)
is still created, with a null category reference, and the run succeeds. -/
theorem C10_unresolved_category_null_reference (env : Env) (s : State) (document_id : Nat)
    (document : Document) (text : String) (extracted : ExtractedFields)
    (category_name : String) (confidence : ℚ) (a : ℚ)
    (hfind : findDocument s.session document_id = some document)
    (hproc : document.processed = false)
    (hfile : env.processFile document.file_path (fileExtension document.filename)
      = .ok (some text, none))
    (htext : (text == "") = false)
    (hext : env.extract_all_data text = .ok (some extracted))
    (hcat : env.predict_category (extracted.vendor.getD "Unknown") text
      = .ok (category_name, confidence))
    (hsync : env.sync_transaction_budgets = .ok ())
    (ha : extracted.amount = some a) (hnz : a ≠ 0)
    (hname : findCategoryByName s.session category_name = none)
    (hother : findCategoryByName s.session "Other" = none) :
    (process_document env s document_id).2 = (true, "Document processed successfully")
    ∧ (process_document env s document_id).1.session.transactions
      = { id := s.session.nextTransactionId
          document_id := some document_id
          transaction_date := extracted.date
          amount := a
          currency := "INR"
          vendor_name := extracted.vendor.getD "Unknown"
          description := "Extracted from " ++ document.original_filename
          category_id := none
          payment_method := extracted.payment_method
          tax_amount := extracted.tax_amount.getD 0
          tax_percentage := extracted.tax_percentage } :: s.session.transactions := by
  have hid : document.id = document_id := by
    have := List.find?_some hfind
    simpa using this
  have hres : resolveCategory s.session category_name = none := by
    unfold resolveCategory
    rw [hname, hother]
  have hamt : truthyAmount extracted.amount = true := by
    rw [ha]
    simpa [truthyAmount] using hnz
  rw [process_document_with_amount env s document_id document text extracted
    category_name confidence hfind hproc hfile htext hext hcat hamt hsync]
  refine ⟨rfl, ?_⟩
  simp [withRawText, buildTransaction, ha, hid, hres]

/-- Witness for C10: `st1` stores no categories at all, so neither the
predicted "Food" nor "Other" resolves; the transaction is created with a
null category reference anyway. -/
theorem C10_witness :
    (process_document (envAmount 777) st1 1).2.1 = true
    ∧ (process_document (envAmount 777) st1 1).1.session.transactions.map
        (fun t => t.category_id) = [none] := by
  have h := C10_unresolved_category_null_reference (envAmount 777) st1 1 doc1
    "receipt text" (fieldsAmount 777) "Food" 90 777 (by decide) rfl rfl rfl rfl rfl
    rfl rfl (by norm_num) rfl rfl
  constructor
  · rw [h.1]
  · rw [h.2]
    rfl

/-- C9: a budget-sync exception after the final commit yields a
`(False, message)` result even though everything was already persisted: the
document stays committed as processed, the created transaction stays
committed, and the handler's rollback leaves the session equal to that
committed store. -/
theorem C9_sync_failure_after_commit_persists :
    (process_document envC9 st1 1).2 = (false, "sync boom")
    ∧ (process_document envC9 st1 1).1.database.transactions.map (fun t => t.amount) = [500]
    ∧ findDocument (process_document envC9 st1 1).1.database 1
        = some { doc1 with raw_text := some "receipt text", processed := true }
    ∧ (process_document envC9 st1 1).1.session = (process_document envC9 st1 1).1.database := by
  decide

/-- An entirely empty store. -/
def emptyStore : Store :=
  { documents := [], transactions := [], categories := [], nextTransactionId := 1 }

/-- A clean, entirely empty state. -/
def stEmpty : State := { database := emptyStore, session := emptyStore, events := [] }

/-- A CSV import row carrying a negative amount. -/
def rowNeg : ImportRow :=
  { date := some "2024-01-01", amount := some (-50), vendor := some "Negative Shop"
    description := none, category_id := none, payment_method := none }

/-- A store holding only the category the manual-entry fixtures reference. -/
def storeCat : Store :=
  { documents := [], transactions := []
    categories := [{ id := 2, name := "Food" }], nextTransactionId := 1 }

/-- A clean state holding `storeCat`. -/
def stCat : State := { database := storeCat, session := storeCat, events := [] }

/-- A well-formed manual-entry POST body. -/
def dataCreate : CreateTransactionData :=
  { amount := some 100, vendor_name := some "Shop", category_id := some 2
    transaction_date := some "2024-02-02", currency := none, description := none
    payment_method := none, tax_amount := none, tax_percentage := none }

/-- A well-formed update PUT body. -/
def dataUpdate : UpdateTransactionData :=
  { amount := some 75, vendor_name := some " New Shop ", transaction_date := none
    category_id := some 2, description := none, payment_method := none
    tax_amount := some 5 }

/-- C2 (amended): the manual-entry POST and the update PUT preserve the
`amount > 0` invariant in both the session and the committed store (they
reject non-positive amounts); the CSV import and document-ingestion paths,
by contrast, perform no positivity validation (see the counterexample). -/
theorem C2_amount_positive_amended :
    (∀ (env : Env) (s : State) (data : CreateTransactionData) (today : String),
        PosAmounts s.session → PosAmounts s.database →
        PosAmounts (create_transaction env s data today).1.session
        ∧ PosAmounts (create_transaction env s data today).1.database)
    ∧ (∀ (env : Env) (s : State) (trans_id : Nat) (data : UpdateTransactionData),
        PosAmounts s.session → PosAmounts s.database →
        PosAmounts (update_transaction env s trans_id data).1.session
        ∧ PosAmounts (update_transaction env s trans_id data).1.database) :=
  ⟨fun env s data today hs hd => create_transaction_pos env s data today hs hd,
   fun env s trans_id data hs hd => update_transaction_pos env s trans_id data hs hd⟩

/-- Counterexample for C2 as stated: the CSV import path persists a
transaction with amount −50 unchecked, and the document-ingestion path
persists an extracted amount of −5 unchecked (the `if amount:` truthiness
gate lets every nonzero value through). -/
theorem C2_counterexample :
    ((import_transactions baseEnv stEmpty [rowNeg]).1.database.transactions.map
        (fun t => t.amount) = [-50])
    ∧ ((process_document (envAmount (-5)) st1 1).1.database.transactions.map
        (fun t => t.amount) = [-5]) := by
  decide

/-- Witness for C2 (amended): positivity is preserved on concrete POST and
PUT calls. -/
theorem C2_witness :
    PosAmounts (create_transaction baseEnv stCat dataCreate "2024-02-02").1.session
    ∧ PosAmounts (update_transaction baseEnv stTxn 1 dataUpdate).1.session := by
  constructor
  · exact (C2_amount_positive_amended.1 baseEnv stCat dataCreate "2024-02-02"
      (by unfold PosAmounts; decide) (by unfold PosAmounts; decide)).1
  · exact (C2_amount_positive_amended.2 baseEnv stTxn 1 dataUpdate
      (by unfold PosAmounts; decide) (by unfold PosAmounts; decide)).1

/-- C6 (code bug): the dedicated DELETE route `delete_transaction` snapshots
the category/date and re-triggers `sync_deleted_transaction_budget` with the
pre-deletion values, but the DELETE branch of `handle_single_transaction`
(registered for the same URL rule) and `bulk_delete_transactions` delete and
commit with no budget-sync call at all. -/
theorem C6_deletion_sync_gap :
    ((delete_transaction baseEnv stTxn 1).1.events
        = [Event.syncDeleted (some 2) (some "2024-01-15")]
      ∧ (delete_transaction baseEnv stTxn 1).1.database.transactions = []
      ∧ (delete_transaction baseEnv stTxn 1).2 = (true, "Transaction deleted successfully"))
    ∧ ((handle_single_transaction_delete stTxn 1).1.events = []
      ∧ (handle_single_transaction_delete stTxn 1).1.database.transactions = []
      ∧ (handle_single_transaction_delete stTxn 1).2 = (true, "Transaction deleted successfully"))
    ∧ ((bulk_delete_transactions stTxn [1]).1.events = []
      ∧ (bulk_delete_transactions stTxn [1]).1.database.transactions = []) := by
  decide

/-- C8 (amended): `process_multiple_documents` processes the ids
sequentially and the failure of one id never aborts the rest: every input
id is accounted for in `success` or as an `(id, error)` pair in `failed`,
with the two lists jointly as long as the input.  Under a healthy budget
synchronizer, distinct ids and no pre-existing transactions referencing
them, `total_transactions` equals the number of transactions the batch
created.  The aggregate notification summarizing success count and total
transactions is fired at the end only when at least one document succeeded;
when every document fails, no batch notification is emitted. -/
theorem C8_batch_amended (env : Env) (s : State) (document_ids : List Nat) :
    ((process_multiple_documents env s document_ids).2.success.length
        + (process_multiple_documents env s document_ids).2.failed.length
        = document_ids.length)
    ∧ (∀ i ∈ document_ids,
        i ∈ (process_multiple_documents env s document_ids).2.success
        ∨ ∃ e, (i, e) ∈ (process_multiple_documents env s document_ids).2.failed)
    ∧ ((process_multiple_documents env s document_ids).2.success ≠ [] →
        (process_multiple_documents env s document_ids).1.events.head?
          = some (.notifyBatchComplete
              (process_multiple_documents env s document_ids).2.success.length
              (process_multiple_documents env s document_ids).2.total_transactions))
    ∧ ((process_multiple_documents env s document_ids).2.success = [] →
        batchCount (process_multiple_documents env s document_ids).1.events
          = batchCount s.events)
    ∧ (env.sync_transaction_budgets = .ok () →
        s.session = s.database →
        document_ids.Nodup →
        (∀ t ∈ s.session.transactions, ∀ j ∈ document_ids, t.document_id ≠ some j) →
        (process_multiple_documents env s document_ids).2.total_transactions
            + s.session.transactions.length
          = (process_multiple_documents env s document_ids).1.session.transactions.length) := by
  cases hF : document_ids.foldl (processBatchStep env)
      (s, { success := [], failed := [], total_transactions := 0 }) with
  | mk s1 results =>
    have hpmd : process_multiple_documents env s document_ids
        = if results.success.isEmpty then (s1, results)
          else (logEvent s1 (.notifyBatchComplete results.success.length
            results.total_transactions), results) := by
      unfold process_multiple_documents
      rw [hF]
      simp only [swallow_eq]
    by_cases hempty : results.success.isEmpty
    · rw [hpmd, if_pos hempty]
      refine ⟨?_, ?_, ?_, ?_, ?_⟩
      · have := processBatch_fold_counts env document_ids s ⟨[], [], 0⟩
        rw [hF] at this
        simpa using this
      · intro i hi
        have := processBatch_fold_mem env document_ids s ⟨[], [], 0⟩ i (Or.inr hi)
        rw [hF] at this
        simpa using this
      · intro hne
        exact absurd (List.isEmpty_iff.mp hempty) hne
      · intro _
        have := processBatch_fold_batchCount env document_ids s ⟨[], [], 0⟩
        rw [hF] at this
        simpa using this
      · intro hsync hsd hnd href
        have := processBatch_fold_total env hsync document_ids s ⟨[], [], 0⟩ hsd hnd href
        rw [hF] at this
        simpa using this
    · rw [hpmd, if_neg hempty]
      refine ⟨?_, ?_, ?_, ?_, ?_⟩
      · have := processBatch_fold_counts env document_ids s ⟨[], [], 0⟩
        rw [hF] at this
        simpa using this
      · intro i hi
        have := processBatch_fold_mem env document_ids s ⟨[], [], 0⟩ i (Or.inr hi)
        rw [hF] at this
        simpa using this
      · intro _
        rfl
      · intro h
        rw [h] at hempty
        exact absurd rfl hempty
      · intro hsync hsd hnd href
        have := processBatch_fold_total env hsync document_ids s ⟨[], [], 0⟩ hsd hnd href
        rw [hF] at this
        simpa using this

/-- Counterexample for C8 as stated: when every document of the batch fails
(here: a single unknown id), no aggregate notification is fired at all —
the batch notification is conditional on at least one success. -/
theorem C8_counterexample :
    (process_multiple_documents baseEnv stEmpty [5]).2
      = { success := [], failed := [(5, "Document not found")], total_transactions := 0 }
    ∧ (process_multiple_documents baseEnv stEmpty [5]).1.events = [] := by
  decide

/-- Witness for C8 (amended): a concrete batch of one succeeding document
(with one extracted transaction) and one unknown id. -/
theorem C8_witness :
    ((process_multiple_documents (envAmount 300) st1 [1, 5]).2.success.length
        + (process_multiple_documents (envAmount 300) st1 [1, 5]).2.failed.length = 2)
    ∧ ((process_multiple_documents (envAmount 300) st1 [1, 5]).1.events.head?
        = some (.notifyBatchComplete
            (process_multiple_documents (envAmount 300) st1 [1, 5]).2.success.length
            (process_multiple_documents (envAmount 300) st1 [1, 5]).2.total_transactions))
    ∧ ((process_multiple_documents (envAmount 300) st1 [1, 5]).2.total_transactions
          + st1.session.transactions.length
        = (process_multiple_documents (envAmount 300) st1 [1, 5]).1.session.transactions.length) := by
  have h := C8_batch_amended (envAmount 300) st1 [1, 5]
  refine ⟨by simpa using h.1, h.2.2.1 (by decide), h.2.2.2.2 rfl rfl (by decide) (by decide)⟩

end FinanceAI
